import Mathlib

/-!
Verification of the LegislAI search-aggregator frontend.

The definitions below are a shallow embedding of the client code:
`src/Agregador_Manus/useSearch.js`, `src/Agregador_Manus/searchService.js`,
`src/Agregador_Manus/useInfiniteScroll.js`,
`src/Agregador_Manus/SearchResults.jsx` and the `SearchProvider` context
(`src/unnamed/part_004`).  The backend merge/rank step is not part of the
source tree (only architecture documents describe it); where a property is
about that step, the corresponding definition is modelled from the spec and
says so in its doc comment.
-/

namespace LegislAI

/-- One normalized search result as the client receives it: the fields used by
`useSearch.js` and rendered by `SearchResults.jsx`/`ResultCard` (shape shown in
`resumo-frontend.md`).  The relevance score is modelled as a rational. -/
structure NormalizedResult where
  id : String
  source : String
  category : String
  title : String
  description : String
  relevance : ℚ
  deriving DecidableEq, Repr

/-- The search response fields that the client consumes, read in
`useSearch.js` lines 48-59 (`results`, `has_more`, `total`, `page`, `query`,
`search_time_ms`, `apis_searched`). -/
structure SearchResponse where
  results : List NormalizedResult
  has_more : Bool
  total : Nat
  page : Nat
  query : String
  search_time_ms : Nat
  apis_searched : List String
  deriving DecidableEq, Repr

/-- Names of the response fields the hook reads off a successful search
response (`useSearch.js` lines 51-57), i.e. what a successful response exposes
to the rest of the client. -/
def responseFields : List String :=
  ["results", "has_more", "total", "page", "query", "search_time_ms",
   "apis_searched"]

/-- The state held by the `useSearch` hook (`useSearch.js` lines 5-15). -/
structure HookState where
  results : List NormalizedResult
  loading : Bool
  error : Option String
  hasMore : Bool
  total : Nat
  page : Nat
  query : String
  searchTime : Nat
  apisSearched : List String
  deriving DecidableEq, Repr

/-- The initial hook state (`useSearch.js` lines 5-15). -/
def initialState : HookState :=
  { results := [], loading := false, error := none, hasMore := false,
    total := 0, page := 1, query := "", searchTime := 0, apisSearched := [] }

/-- The parameters a caller passes to `search` (`searchParams` in
`useSearch.js`).  Optional fields are `Option`s; a JS `undefined` is `none`. -/
structure SearchParams where
  query : String
  limit : Option Int
  apis : Option (List String)
  categories : Option (List String)
  dateStart : Option String
  dateEnd : Option String
  deriving DecidableEq, Repr

/-- The request body sent to `POST /api/v1/search`
(`requestData` in `useSearch.js` lines 36-44). -/
structure RequestData where
  query : String
  page : Nat
  limit : Int
  apis : Option (List String)
  categories : Option (List String)
  date_start : Option String
  date_end : Option String
  deriving DecidableEq, Repr

/-- The limit actually placed in the request: `searchParams.limit || 20`
(`useSearch.js` line 39).  In JS the number `0` is falsy (as is an absent
field), so both an absent limit and `0` become `20`; every other supplied
value passes through unchanged. -/
def effectiveLimit : Option Int → Int
  | none => 20
  | some l => if l = 0 then 20 else l

/-- The optimistic state update made before the request is sent
(`useSearch.js` lines 28-33): set `loading`, clear `error`, and when
`resetResults` also clear `results` and reset `page`. -/
def searchPre (reset : Bool) (s : HookState) : HookState :=
  { s with
    loading := true
    error := none
    results := if reset then [] else s.results
    page := if reset then 1 else s.page }

/-- The request body built by `search` (`useSearch.js` lines 36-44):
page 1 on a fresh search, `state.page + 1` on a load-more. -/
def searchRequestData (p : SearchParams) (reset : Bool) (s : HookState) :
    RequestData :=
  { query := p.query
    page := if reset then 1 else s.page + 1
    limit := effectiveLimit p.limit
    apis := p.apis
    categories := p.categories
    date_start := p.dateStart
    date_end := p.dateEnd }

/-- The state update applied on a successful response
(`useSearch.js` lines 48-59).  On a fresh search the results are replaced; on
a load-more the response page is appended verbatim to the previous results. -/
def applyResponse (reset : Bool) (prev : HookState) (r : SearchResponse) :
    HookState :=
  { prev with
    loading := false
    results := if reset then r.results else prev.results ++ r.results
    hasMore := r.has_more
    total := r.total
    page := r.page
    query := r.query
    searchTime := r.search_time_ms
    apisSearched := r.apis_searched
    error := none }

/-- The filter set held by the `SearchProvider` context
(`src/unnamed/part_004` lines 14-19). -/
structure Filters where
  apis : List String
  categories : List String
  dateStart : Option String
  dateEnd : Option String
  deriving DecidableEq, Repr

/-- The parameters `Home.handleSearch` passes to `search`
(`src/unnamed/part_004`, `Home` component): `{ query: searchQuery, ...filters }`
with no `limit`; arrays are truthy in JS even when empty, so the filter arrays
are always present. -/
def homeSearchParams (q : String) (f : Filters) : SearchParams :=
  { query := q, limit := none, apis := some f.apis,
    categories := some f.categories, dateStart := f.dateStart,
    dateEnd := f.dateEnd }

/-- A call to the top-level handler `Home.handleSearch` invokes
`search(params)` with `resetResults` left at its default `true`
(`useSearch.js` line 19); this is the pre-update state paired with the
request body it sends. -/
def homeHandleSearch (q : String) (f : Filters) (s : HookState) :
    HookState × RequestData :=
  (searchPre true s, searchRequestData (homeSearchParams q f) true s)

/-- The `loadMore` callback (`useSearch.js` lines 74-85): a guarded call to
`search({ query: state.query, limit: 20 }, false)`.  The result is the state
after the synchronous part together with the request it issues, or `none`
when the guard `state.loading || !state.hasMore || !state.query` fires. -/
def loadMoreStep (s : HookState) : HookState × Option RequestData :=
  if s.loading || !s.hasMore || s.query == "" then (s, none)
  else
    (searchPre false s,
     some (searchRequestData
       { query := s.query, limit := some 20, apis := none,
         categories := none, dateStart := none, dateEnd := none } false s))

/-- The scroll handler of `useInfiniteScroll.js` (lines 6-12): given the
viewport metrics and the current flags it returns the new `isFetching` value.
The handler returns early (leaving `isFetching` unchanged) when
`innerHeight + scrollTop >= offsetHeight - 1000 || isFetching || !hasMore`,
and sets `isFetching` to `true` otherwise. -/
def handleScroll (innerHeight scrollTop offsetHeight : Int)
    (isFetching hasMore : Bool) : Bool :=
  if innerHeight + scrollTop ≥ offsetHeight - 1000 || isFetching || !hasMore
  then isFetching
  else true

/-- JavaScript `String.prototype.replace` with a plain-string pattern
replaces only the first occurrence; this is that operation for a
single-character pattern, on a list of characters. -/
def replaceFirstChar (c d : Char) : List Char → List Char
  | [] => []
  | x :: xs => if x = c then d :: xs else x :: replaceFirstChar c d xs

/-- String version of `replaceFirstChar`, used for `api.replace('_', ' ')`. -/
def replaceUnderscore (s : String) : String :=
  String.mk (replaceFirstChar '_' ' ' s.toList)

/-- The source labels `SearchResults.jsx` renders (lines 124-135): one tag per
entry of `apisSearched`, showing `api.replace('_', ' ')`.  No other response
data feeds this banner. -/
def sourceTags (apisSearched : List String) : List String :=
  apisSearched.map replaceUnderscore

/-- The outcome of the underlying `apiService` HTTP call: either a parsed
response or a failure. -/
inductive FetchOutcome (α : Type) where
  | ok (response : α)
  | fail (message : String)
  deriving DecidableEq, Repr

/-- Response body of `GET /api/v1/search/suggestions`: the `suggestions`
field may be absent. -/
structure SuggestionsResponse where
  suggestions : Option (List String)
  deriving DecidableEq, Repr

/-- One entry of the `/api/v1/health/apis` response. -/
structure ApiHealth where
  name : String
  status : String
  deriving DecidableEq, Repr

/-- Response body of `GET /api/v1/health/apis`: the `apis` field may be
absent. -/
structure ApisHealthResponse where
  apis : Option (List ApiHealth)
  deriving DecidableEq, Repr

/-- `searchService.search` (`searchService.js` lines 7-15): a successful
HTTP call is returned as-is; any failure is re-thrown as
`Error('Falha na busca. Tente novamente.')`. -/
def searchService_search (o : FetchOutcome SearchResponse) :
    Except String SearchResponse :=
  match o with
  | .ok r => .ok r
  | .fail _ => .error "Falha na busca. Tente novamente."

/-- `searchService.getSuggestions` (`searchService.js` lines 20-28):
returns `response.suggestions || []`, and `[]` on any failure. -/
def searchService_getSuggestions (o : FetchOutcome SuggestionsResponse) :
    List String :=
  match o with
  | .ok r => r.suggestions.getD []
  | .fail _ => []

/-- `searchService.getApisStatus` (`searchService.js` lines 33-41):
returns `response.apis || []`, and `[]` on any failure. -/
def searchService_getApisStatus (o : FetchOutcome ApisHealthResponse) :
    List ApiHealth :=
  match o with
  | .ok r => r.apis.getD []
  | .fail _ => []

/-- `SearchProvider.addToHistory` (`src/unnamed/part_004` lines 30-40):
ignore blank queries; otherwise prepend the query, drop previous occurrences
of it, and keep the first 10 entries. -/
def addToHistory (q : String) (hist : List String) : List String :=
  if q.trim = "" then hist
  else (q :: hist.filter (fun item => item ≠ q)).take 10

/-- A whole load-more session as the hook accumulates it: the state after the
initial fresh search (`applyResponse true`) followed by one `applyResponse
false` per further page (`useSearch.js` lines 48-59 in both cases). -/
def sessionAccum (s : HookState) (first : SearchResponse)
    (more : List SearchResponse) : HookState :=
  more.foldl (fun st r => applyResponse false st r)
    (applyResponse true (searchPre true s) first)

/-- Modelled from the spec: the backend Ranker/Merger of §4.5 is not under
`src/` (only the architecture documents `estrutura-backend.md` and
`src/unnamed/part_005` describe it).  A result entering the merge step
carries its combined score, the priority rank of its source (lower number =
higher priority), and its globally unique id. -/
structure RankedResult where
  score : ℚ
  priority : Nat
  id : String
  deriving DecidableEq, Repr

/-- Modelled from the spec: the §4.5 ordering key — descending combined
score, then source priority, then id — as a lexicographic triple (score is
negated so that the plain lexicographic order sorts it descending). -/
def rankKey (r : RankedResult) : ℚ ×ₗ (Nat ×ₗ String) :=
  toLex (-r.score, toLex (r.priority, r.id))

/-- Modelled from the spec: result `a` is ranked no later than result `b`. -/
def rankLE (a b : RankedResult) : Prop :=
  rankKey a ≤ rankKey b

instance : DecidableRel rankLE := fun a b => by
  unfold rankLE; exact inferInstance

instance : IsTotal RankedResult rankLE :=
  ⟨fun a b => le_total (rankKey a) (rankKey b)⟩

instance : IsTrans RankedResult rankLE :=
  ⟨fun _ _ _ h h2 => le_trans h h2⟩

/-- The §4.5 ordering spelled out: `rankLE a b` holds exactly when `a` has
the strictly higher combined score, or the scores tie and `a` comes from the
higher-priority source, or both tie and `a` has the smaller-or-equal id. -/
theorem rankLE_iff (a b : RankedResult) :
    rankLE a b ↔
      b.score < a.score ∨
        (a.score = b.score ∧
          (a.priority < b.priority ∨
            (a.priority = b.priority ∧ a.id ≤ b.id))) := by
  unfold rankLE rankKey
  rw [Prod.Lex.le_iff]
  constructor
  · rintro (h | ⟨h1, h2⟩)
    · exact Or.inl (by simpa using h)
    · refine Or.inr ⟨by simpa [neg_inj] using h1, ?_⟩
      rw [Prod.Lex.le_iff] at h2
      rcases h2 with h2 | ⟨h2, h3⟩
      · exact Or.inl h2
      · exact Or.inr ⟨h2, h3⟩
  · rintro (h | ⟨h1, h2⟩)
    · exact Or.inl (by simpa using h)
    · refine Or.inr ⟨by simpa [neg_inj] using h1, ?_⟩
      rw [Prod.Lex.le_iff]
      rcases h2 with h2 | ⟨h2, h3⟩
      · exact Or.inl h2
      · exact Or.inr ⟨h2, h3⟩

/-- Modelled from the spec: the merge step of §4.5 — pool the per-source
batches and sort them by the ranking order.  Being a pure function of its
input, it is deterministic by construction. -/
def mergeRank (batches : List (List RankedResult)) : List RankedResult :=
  (batches.flatten).insertionSort rankLE

/-- Modelled from the spec: the §4.5 merged page — the ranked pool capped at
the requested page limit. -/
def mergedPage (limit : Nat) (batches : List (List RankedResult)) :
    List RankedResult :=
  (mergeRank batches).take limit

/-- Trace model of request cancellation in the `useSearch` hook.  Each
`AbortController` created at `useSearch.js` line 26 is numbered; `aborted`
records the controllers whose `abort()` has been called, and `inFlight`
records the requests whose outbound HTTP work has not yet settled.  A
request's HTTP work is started by `searchService.search(requestData)`
(`useSearch.js` line 46), a call that receives only the request body — the
controller's signal is not among its arguments (nor in
`apiService.post('/api/v1/search', searchRequest)` at `searchService.js`
line 9) — so aborting a controller does not remove its request from
`inFlight`; only a settled response does. -/
structure AbortTraceState where
  nextId : Nat
  currentCtrl : Option Nat
  aborted : List Nat
  inFlight : List Nat
  deriving DecidableEq, Repr

/-- The trace state before any search: no controller, nothing in flight. -/
def abortInit : AbortTraceState :=
  { nextId := 0, currentCtrl := none, aborted := [], inFlight := [] }

/-- One call to `search` (`useSearch.js` lines 19-46): abort the previous
controller if any, install a fresh controller, and start the outbound
request.  The previous request stays in `inFlight` because no signal is
passed to `searchService.search`. -/
def startSearchOp (st : AbortTraceState) : AbortTraceState :=
  { nextId := st.nextId + 1
    currentCtrl := some st.nextId
    aborted := st.aborted ++ st.currentCtrl.toList
    inFlight := st.nextId :: st.inFlight }

/-- A response for request `n` settles: its outbound work ends
(`await searchService.search` resolves or rejects). -/
def settleOp (n : Nat) (st : AbortTraceState) : AbortTraceState :=
  { st with inFlight := st.inFlight.filter (fun m => m ≠ n) }

/-- `clearResults` (`useSearch.js` lines 87-90): abort the current
controller; again no effect on `inFlight` since the signal is unused. -/
def clearResultsOp (st : AbortTraceState) : AbortTraceState :=
  { st with aborted := st.aborted ++ st.currentCtrl.toList }

/-! Theorems.  Each claim of the specification review is settled below. -/

lemma foldl_applyResponse_results (st : HookState)
    (more : List SearchResponse) :
    (more.foldl (fun a r => applyResponse false a r) st).results =
      st.results ++ (more.map SearchResponse.results).flatten := by
  induction more generalizing st with
  | nil => simp
  | cons r rest ih =>
      simp only [List.foldl_cons, List.map_cons, List.flatten_cons]
      rw [ih]
      simp [applyResponse]

/-- C1 counterexample: the claim says each loadMore appends only results
whose ids were not yet emitted, so the accumulated list never holds two
entries with the same id.  In the code the load-more branch of
`useSearch.js` line 51 appends the whole response page verbatim; in a
session whose first page and first load-more page both contain the result
with id `"camara-1"`, the accumulated list shows that id twice. -/
theorem C1_counterexample :
    ¬ (((sessionAccum initialState
        { results := [⟨"camara-1", "camara", "proposicoes", "t", "d", 1⟩],
          has_more := true, total := 2, page := 1, query := "q",
          search_time_ms := 5, apis_searched := ["camara"] }
        [{ results := [⟨"camara-1", "camara", "proposicoes", "t", "d", 1⟩],
           has_more := false, total := 2, page := 2, query := "q",
           search_time_ms := 5, apis_searched := ["camara"] }]).results.map
          NormalizedResult.id).Nodup) := by
  decide

/-- C1 amended: each loadMore call appends the response page verbatim with no
client-side id filtering, so across a session the accumulated result list is
exactly the concatenation of the emitted pages; consequently it is free of
duplicate ids exactly when the ids of the emitted pages are jointly
duplicate-free. -/
theorem C1_amended_accumulation (s : HookState) (first : SearchResponse)
    (more : List SearchResponse) :
    (sessionAccum s first more).results =
      first.results ++ (more.map SearchResponse.results).flatten ∧
    (((sessionAccum s first more).results.map NormalizedResult.id).Nodup ↔
      (((first.results ++ (more.map SearchResponse.results).flatten).map
        NormalizedResult.id).Nodup)) := by
  have h : (sessionAccum s first more).results =
      first.results ++ (more.map SearchResponse.results).flatten := by
    unfold sessionAccum
    rw [foldl_applyResponse_results]
    simp [applyResponse]
  exact ⟨h, by rw [h]⟩

/-- C2 counterexample: the claim says the effective limit always lies in
1..100, whatever the client supplies.  `useSearch.js` line 39 computes
`searchParams.limit || 20`, so a supplied limit of 150 is forwarded as 150,
outside the range. -/
theorem C2_counterexample :
    ¬ (1 ≤ (searchRequestData
        { query := "despesas", limit := some 150, apis := none,
          categories := none, dateStart := none, dateEnd := none }
        true initialState).limit ∧
      (searchRequestData
        { query := "despesas", limit := some 150, apis := none,
          categories := none, dateStart := none, dateEnd := none }
        true initialState).limit ≤ 100) := by
  decide

/-- C2 amended: the effective limit is 20 when the client supplies no limit
or the (falsy) value 0; any other supplied value is forwarded unchanged, so
the effective limit lies in 1..100 exactly when the client omitted the
limit, supplied 0, or supplied a value already in 1..100 — negative values
and values above 100 are not clamped. -/
theorem C2_amended_limit (lo : Option Int) :
    effectiveLimit none = 20 ∧ effectiveLimit (some 0) = 20 ∧
    ((1 ≤ effectiveLimit lo ∧ effectiveLimit lo ≤ 100) ↔
      (lo = none ∨ lo = some 0 ∨
        ∃ l, lo = some l ∧ 1 ≤ l ∧ l ≤ 100)) := by
  refine ⟨rfl, rfl, ?_⟩
  cases lo with
  | none => simp [effectiveLimit]
  | some l =>
      by_cases h : l = 0
      · subst h
        simp [effectiveLimit]
      · simp only [effectiveLimit, if_neg h, Option.some.injEq]
        constructor
        · intro hr
          exact Or.inr (Or.inr ⟨l, rfl, hr.1, hr.2⟩)
        · rintro (h1 | h1 | ⟨l2, h1, h2, h3⟩)
          · exact absurd h1 (by simp)
          · exact absurd h1 (by simp [h])
          · cases h1
            exact ⟨h2, h3⟩

/-- C3, evaluated at the failing input: with the viewport near the end
(`innerHeight + scrollTop = 2800 ≥ offsetHeight - 1000 = 2000`), `has_more`
true and no fetch in progress, the scroll handler of `useInfiniteScroll.js`
leaves `isFetching` false — no follow-up request is triggered — while a
viewport far from the end (`900 < 2000`) does trigger one; and the follow-up
request that `loadMore` eventually issues carries the page number
`state.page + 1`, not a response-provided cursor. -/
theorem C3_code_eval :
    handleScroll 800 2000 3000 false true = false ∧
    handleScroll 800 100 3000 false true = true ∧
    (loadMoreStep
        { initialState with
          query := "despesas"
          hasMore := true
          page := 3 }).2 =
      some { query := "despesas", page := 4, limit := 20, apis := none,
             categories := none, date_start := none, date_end := none } := by
  decide

/-- C4: every call to the top-level handler `Home.handleSearch` starts a
fresh session — the request it sends asks for page 1, the optimistic update
discards the previously accumulated results and resets the page, and on
success the stored results are exactly the response page, with nothing
carried over from the prior session. -/
theorem C4_fresh_session (q : String) (f : Filters) (s : HookState)
    (r : SearchResponse) :
    ((homeHandleSearch q f s).2).page = 1 ∧
    ((homeHandleSearch q f s).1).results = [] ∧
    ((homeHandleSearch q f s).1).page = 1 ∧
    (applyResponse true (homeHandleSearch q f s).1 r).results = r.results := by
  exact ⟨rfl, rfl, rfl, rfl⟩

/-- C5 counterexample: the claim says every successful search response
exposes a per-source status map named `source_status`.  The response the
client consumes (`useSearch.js` lines 51-57) has no such field. -/
theorem C5_counterexample : "source_status" ∉ responseFields := by
  decide

/-- C5 amended: every successful search response exposes `apis_searched`,
the list of queried source names; the client stores it verbatim and renders
one tag per name (with the first underscore shown as a space).  No
per-source status values exist in the consumed response, so degraded
sources are not distinguishable from successful ones there. -/
theorem C5_amended_sources (s : HookState) (r : SearchResponse) :
    (applyResponse true s r).apisSearched = r.apis_searched ∧
    sourceTags (applyResponse true s r).apisSearched =
      r.apis_searched.map replaceUnderscore ∧
    "apis_searched" ∈ responseFields := by
  exact ⟨rfl, rfl, by decide⟩

instance : IsAntisymm RankedResult rankLE := by
  constructor
  intro a b h1 h2
  unfold rankLE at h1 h2
  have hk : rankKey a = rankKey b := le_antisymm h1 h2
  unfold rankKey at hk
  cases a with
  | mk sa pa ia =>
      cases b with
      | mk sb pb ib =>
          have h3 : ((-sa, toLex (pa, ia)) : ℚ × (Nat ×ₗ String)) =
              (-sb, toLex (pb, ib)) := toLex.injective hk
          rw [Prod.mk.injEq] at h3
          obtain ⟨h4, h5⟩ := h3
          have h6 : ((pa, ia) : Nat × String) = (pb, ib) :=
            toLex.injective h5
          rw [Prod.mk.injEq] at h6
          simp only [RankedResult.mk.injEq]
          exact ⟨neg_inj.mp h4, h6.1, h6.2⟩

/-- C6: the merged page is sorted descending by combined score, with ties
broken by source priority and then by id; the ranked pool is a permutation
of the pooled input batches, the page respects the requested cap, and the
output ordering is uniquely determined by the input pool (any sorted
permutation of the pool equals the merge output), so identical inputs give
identical output. -/
theorem C6_merge_sorted (limit : Nat) (batches : List (List RankedResult)) :
    (mergeRank batches).Pairwise (fun a b =>
      b.score < a.score ∨
        (a.score = b.score ∧
          (a.priority < b.priority ∨
            (a.priority = b.priority ∧ a.id ≤ b.id)))) ∧
    List.Perm (mergeRank batches) batches.flatten ∧
    (mergedPage limit batches).Pairwise (fun a b =>
      b.score < a.score ∨
        (a.score = b.score ∧
          (a.priority < b.priority ∨
            (a.priority = b.priority ∧ a.id ≤ b.id)))) ∧
    (mergedPage limit batches).length ≤ limit ∧
    (∀ l, List.Perm l batches.flatten → l.Sorted rankLE → l = mergeRank batches) := by
  have hsorted : (mergeRank batches).Sorted rankLE :=
    List.sorted_insertionSort rankLE batches.flatten
  have hpair : (mergeRank batches).Pairwise (fun a b =>
      b.score < a.score ∨
        (a.score = b.score ∧
          (a.priority < b.priority ∨
            (a.priority = b.priority ∧ a.id ≤ b.id)))) :=
    hsorted.imp (fun h => (rankLE_iff _ _).mp h)
  have hperm : List.Perm (mergeRank batches) batches.flatten :=
    List.perm_insertionSort rankLE batches.flatten
  refine ⟨hpair, hperm, ?_, ?_, ?_⟩
  · exact hpair.sublist (List.take_sublist limit (mergeRank batches))
  · exact List.length_take_le limit (mergeRank batches)
  · intro l hl hs
    exact List.eq_of_perm_of_sorted (hl.trans hperm.symm) hs hsorted

/-- C6 witness: the merge theorem applied at the concrete input consisting
of a single batch holding a single result. -/
theorem C6_merge_sorted_witness :
    List.Perm [({ score := 1, priority := 0, id := "camara-1" } : RankedResult)]
        ([[{ score := 1, priority := 0, id := "camara-1" }]] :
          List (List RankedResult)).flatten ∧
    List.Sorted rankLE
      [({ score := 1, priority := 0, id := "camara-1" } : RankedResult)] ∧
    [({ score := 1, priority := 0, id := "camara-1" } : RankedResult)] =
      mergeRank [[{ score := 1, priority := 0, id := "camara-1" }]] := by
  refine ⟨by simp, List.sorted_singleton _, ?_⟩
  exact (C6_merge_sorted 1
      [[{ score := 1, priority := 0, id := "camara-1" }]]).2.2.2.2
    [{ score := 1, priority := 0, id := "camara-1" }]
    (by simp) (List.sorted_singleton _)

/-- C7: `loadMore` is a no-op whenever a request is in flight, `has_more` is
false, or no query is active — the hook state is returned unchanged and no
request is issued. -/
theorem C7_loadMore_noop (s : HookState)
    (h : s.loading = true ∨ s.hasMore = false ∨ s.query = "") :
    loadMoreStep s = (s, none) := by
  unfold loadMoreStep
  rcases h with h | h | h <;> simp [h]

/-- C7 witness: the no-op theorem applied at the initial hook state, where
`hasMore` is false and the query is empty. -/
theorem C7_loadMore_noop_witness :
    (initialState.loading = true ∨ initialState.hasMore = false ∨
      initialState.query = "") ∧
    loadMoreStep initialState = (initialState, none) :=
  ⟨by decide, C7_loadMore_noop initialState (by decide)⟩

/-- C8, evaluated at the failing input: two consecutive calls to `search`
with no response in between.  The second call aborts controller 0
(`useSearch.js` line 22), yet request 0 remains in flight alongside request
1, because the abort signal is never passed to
`searchService.search`/`apiService.post`; likewise `clearResults` aborts
the controller without ending the outbound work. -/
theorem C8_code_eval :
    (startSearchOp (startSearchOp abortInit)).inFlight = [1, 0] ∧
    0 ∈ (startSearchOp (startSearchOp abortInit)).aborted ∧
    (clearResultsOp (startSearchOp abortInit)).inFlight = [0] ∧
    0 ∈ (clearResultsOp (startSearchOp abortInit)).aborted := by
  decide

/-- C9: on any failure of the underlying HTTP call, `getSuggestions` and
`getApisStatus` swallow the error and return the empty list, while `search`
rethrows exactly `Falha na busca. Tente novamente.`; moreover every outcome
of `search` is either the untouched successful response or that exact
error — it never returns a partial response on failure. -/
theorem C9_service_errors :
    (∀ m : String,
      searchService_search (.fail m) =
        .error "Falha na busca. Tente novamente." ∧
      searchService_getSuggestions (.fail m) = [] ∧
      searchService_getApisStatus (.fail m) = []) ∧
    (∀ o : FetchOutcome SearchResponse,
      (∃ r, o = .ok r ∧ searchService_search o = .ok r) ∨
      (∃ m, o = .fail m ∧
        searchService_search o =
          .error "Falha na busca. Tente novamente.")) := by
  constructor
  · intro m
    exact ⟨rfl, rfl, rfl⟩
  · intro o
    cases o with
    | ok r => exact Or.inl ⟨r, rfl, rfl⟩
    | fail m => exact Or.inr ⟨m, rfl, rfl⟩

/-- C10: starting from a duplicate-free history of at most 10 entries,
`addToHistory` keeps it duplicate-free and within 10 entries; a blank or
whitespace-only query leaves the history unchanged, and a non-blank query
ends up exactly once, at the front. -/
theorem C10_history_invariant (q : String) (hist : List String)
    (hnd : hist.Nodup) (hlen : hist.length ≤ 10) :
    (addToHistory q hist).Nodup ∧ (addToHistory q hist).length ≤ 10 ∧
    (q.trim = "" → addToHistory q hist = hist) ∧
    (q.trim ≠ "" → (addToHistory q hist).head? = some q ∧
      (addToHistory q hist).count q = 1) := by
  by_cases hq : q.trim = ""
  · unfold addToHistory
    rw [if_pos hq]
    exact ⟨hnd, hlen, fun _ => rfl, fun hc => absurd hq hc⟩
  · unfold addToHistory
    rw [if_neg hq]
    have hLnd : (hist.filter (fun item => item ≠ q)).Nodup :=
      hnd.filter _
    have hqL : q ∉ hist.filter (fun item => item ≠ q) := by
      intro hmem
      have := List.of_mem_filter hmem
      simp at this
    have hcons : (q :: hist.filter (fun item => item ≠ q)).Nodup :=
      List.nodup_cons.mpr ⟨hqL, hLnd⟩
    have htake : ((q :: hist.filter (fun item => item ≠ q)).take 10).Nodup :=
      hcons.sublist (List.take_sublist _ _)
    refine ⟨htake, List.length_take_le _ _, fun hc => absurd hc hq, ?_⟩
    intro _
    rw [List.take_succ_cons]
    constructor
    · rfl
    · rw [List.count_cons_self]
      have hnot : q ∉ (hist.filter (fun item => item ≠ q)).take 9 :=
        fun hmem => hqL ((List.take_sublist _ _).mem hmem)
      rw [List.count_eq_zero.mpr hnot]

/-- C10 witness: the history invariant applied at the concrete query
`despesas` and the one-entry history. -/
theorem C10_history_invariant_witness :
    (["servidores"] : List String).Nodup ∧
    (["servidores"] : List String).length ≤ 10 ∧
    ((addToHistory "despesas" ["servidores"]).Nodup ∧
      (addToHistory "despesas" ["servidores"]).length ≤ 10 ∧
      ("despesas".trim = "" →
        addToHistory "despesas" ["servidores"] = ["servidores"]) ∧
      ("despesas".trim ≠ "" →
        (addToHistory "despesas" ["servidores"]).head? = some "despesas" ∧
        (addToHistory "despesas" ["servidores"]).count "despesas" = 1)) :=
  ⟨by decide, by decide,
    C10_history_invariant "despesas" ["servidores"] (by decide) (by decide)⟩

end LegislAI
